import Mathlib

/-!
Verification development for the AI-Proxy-Protector repository: a shallow
embedding of its PII pre-filter (src/pii-detector.js, quickPIICheck), the
remote classifier wrapper (detectPII), the prompt-extraction and
inspection pipeline (src/server.js, both revisions), the CONNECT routing
and interception handshake (src/server.js), and the certificate manager
(src/cert-manager.js).
-/

namespace AIProxy

/-! ## JavaScript regular-expression fragment

src/pii-detector.js line 54-64 tests the candidate text against five fixed
regular expressions with RegExp.prototype.test semantics: the test succeeds
iff a match exists starting at some position of the string.  The fragment of
regex syntax those five patterns use is: character classes with counted
repetition and the zero-width word-boundary assertion.  We embed exactly
that fragment. -/

/-- JS word character for the word-boundary assertion: [A-Za-z0-9_]. -/
def isWordChar (c : Char) : Bool :=
  c.isAlpha || c.isDigit || c == '_'

/-- JS whitespace class membership for the patterns ([-\s]? separators). -/
def isJsSpace (c : Char) : Bool :=
  c == ' ' || c == '\t' || c == '\n' || c == '\r' || c == '\x0b' || c == '\x0c'

/-- One element of a pattern: a character class repeated between lo and hi
times (hi = none means unbounded), or a word-boundary assertion. -/
inductive RE where
  | cls : (Char → Bool) → Nat → Option Nat → RE
  | bnd : RE

/-- The word-boundary assertion holds between a previous character (none at
start of input) and the rest of the input exactly when word-membership
changes. -/
def boundaryOk (prev : Option Char) (s : List Char) : Bool :=
  let pw := match prev with | some c => isWordChar c | none => false
  let nw := match s with | c :: _ => isWordChar c | [] => false
  pw != nw

/-- Decrement an optional repetition bound. -/
def decOpt : Option Nat → Option Nat
  | none => none
  | some n => some (n - 1)

/-- Whether the repetition bound still allows consuming a character. -/
def canMore : Option Nat → Bool
  | none => true
  | some n => decide (0 < n)

/-- Does the pattern match a prefix of s (given the character preceding s)?
Repetition counts are chosen existentially, which coincides with the
backtracking existence semantics of RegExp.prototype.test.  Each recursive
call strictly decreases s.length + pattern.length, so the fuel supplied by
reMatch below never runs out and the fuel-0 answer is never reached. -/
def reMatchF : Nat → List RE → Option Char → List Char → Bool
  | 0, _, _, _ => false
  | _ + 1, [], _, _ => true
  | fuel + 1, RE.bnd :: rs, prev, s => boundaryOk prev s && reMatchF fuel rs prev s
  | fuel + 1, RE.cls p lo hi :: rs, prev, s =>
    (decide (lo = 0) && reMatchF fuel rs prev s) ||
      (match s with
       | [] => false
       | c :: rest =>
         canMore hi && p c && reMatchF fuel (RE.cls p (lo - 1) (decOpt hi) :: rs) (some c) rest)

/-- Pattern match at the start of s, with sufficient fuel. -/
def reMatch (pat : List RE) (prev : Option Char) (s : List Char) : Bool :=
  reMatchF (s.length + pat.length + 1) pat prev s

/-- Does the pattern match starting at some position of s?  prev carries the
character just before the current position for the boundary assertion. -/
def reTestAux (pat : List RE) : Option Char → List Char → Bool
  | prev, [] => reMatch pat prev []
  | prev, c :: rest => reMatch pat prev (c :: rest) || reTestAux pat (some c) rest

/-- RegExp.prototype.test for the embedded fragment. -/
def reTest (pat : List RE) (text : String) : Bool :=
  reTestAux pat none text.data

/-- A class repeated an exact number of times. -/
def exCls (p : Char → Bool) (n : Nat) : RE := RE.cls p n (some n)

/-- A single literal character. -/
def chCls (ch : Char) : RE := RE.cls (fun c => c == ch) 1 (some 1)

/-- An optional single character from a class. -/
def optCls (p : Char → Bool) : RE := RE.cls p 0 (some 1)

/-- SSN pattern of src/pii-detector.js line 56. -/
def ssnPattern : List RE :=
  [RE.bnd, exCls Char.isDigit 3, chCls '-', exCls Char.isDigit 2, chCls '-',
   exCls Char.isDigit 4, RE.bnd]

/-- Credit-card pattern of src/pii-detector.js line 57. -/
def creditCardPattern : List RE :=
  [RE.bnd, exCls Char.isDigit 4, optCls (fun c => c == '-' || isJsSpace c),
   exCls Char.isDigit 4, optCls (fun c => c == '-' || isJsSpace c),
   exCls Char.isDigit 4, optCls (fun c => c == '-' || isJsSpace c),
   exCls Char.isDigit 4, RE.bnd]

/-- Email pattern of src/pii-detector.js line 58. -/
def emailPattern : List RE :=
  [RE.bnd,
   RE.cls (fun c => c.isAlpha || c.isDigit || c == '.' || c == '_' || c == '%' || c == '+' || c == '-') 1 none,
   chCls '@',
   RE.cls (fun c => c.isAlpha || c.isDigit || c == '.' || c == '-') 1 none,
   chCls '.',
   RE.cls (fun c => c.isAlpha || c == '|') 2 none,
   RE.bnd]

/-- Phone-number pattern of src/pii-detector.js line 59. -/
def phonePattern : List RE :=
  [RE.bnd, exCls Char.isDigit 3, optCls (fun c => c == '-' || c == '.'),
   exCls Char.isDigit 3, optCls (fun c => c == '-' || c == '.'),
   exCls Char.isDigit 4, RE.bnd]

/-- IPv4 pattern of src/pii-detector.js line 60. -/
def ipPattern : List RE :=
  [RE.bnd, RE.cls Char.isDigit 1 (some 3), chCls '.',
   RE.cls Char.isDigit 1 (some 3), chCls '.',
   RE.cls Char.isDigit 1 (some 3), chCls '.',
   RE.cls Char.isDigit 1 (some 3), RE.bnd]

/-- quickPIICheck of src/pii-detector.js line 54-64: some pattern tests
positive on the text. -/
def quickPIICheck (text : String) : Bool :=
  [ssnPattern, creditCardPattern, emailPattern, phonePattern, ipPattern].any
    (fun pat => reTest pat text)

example : quickPIICheck "my ssn is 123-45-6789 ok" = true := by decide
example : quickPIICheck "mail me at a@b.com" = true := by decide
example : quickPIICheck "hello there friend" = false := by decide
example : quickPIICheck "call 555-123-4567" = true := by decide
example : quickPIICheck "host 10.0.0.1 up" = true := by decide
example : quickPIICheck "card 1234 5678 9012 3456" = true := by decide

/-! ## JavaScript values

The request bodies and classifier responses are JSON.  The extraction and
classification code navigates the parsed value with property accesses,
optional chaining, indexing and truthiness tests, so we model post-parse
JavaScript values and those operations.  JSON.parse itself is a library
boundary: its outcome (a value, or a thrown SyntaxError) is passed in as an
Except value. -/

/-- A parsed JSON value (a JavaScript value as produced by JSON.parse). -/
inductive Json where
  | null : Json
  | boolean : Bool → Json
  | num : Int → Json
  | str : String → Json
  | arr : List Json → Json
  | obj : List (String × Json) → Json

/-- Property lookup in an object's field list; none models undefined. -/
def lookupField : List (String × Json) → String → Option Json
  | [], _ => none
  | (k, v) :: rest, key => if k == key then some v else lookupField rest key

/-- JavaScript property access v.key; undefined (none) on any non-object,
including arrays and primitives.  Access on null throws and is handled at
each use site. -/
def jget : Json → String → Option Json
  | Json.obj fields, key => lookupField fields key
  | _, _ => none

/-- JavaScript truthiness of a value. -/
def truthy : Json → Bool
  | Json.null => false
  | Json.boolean b => b
  | Json.num n => n != 0
  | Json.str s => !(s == "")
  | Json.arr _ => true
  | Json.obj _ => true

/-- JavaScript v.length for the values that carry one; none models
undefined. -/
def jsLen : Json → Option Nat
  | Json.str s => some s.length
  | Json.arr l => some l.length
  | _ => none

/-- Array.isArray. -/
def isJsArray : Json → Bool
  | Json.arr _ => true
  | _ => false

/-- JavaScript s.substring(0, n) restricted to the first n characters,
as a list operation on the string's characters. -/
def takeChars (n : Nat) (s : String) : String :=
  String.mk (s.data.take n)

/-! ## Prompt extraction (InspectionPipeline)

src/server.js contains two revisions of extractPrompt.  The first
(lines 208-226) checks messages, prompt, input, text and falls back to
body.substring(0, 1000) when JSON.parse throws.  The second
(lines 535-561) additionally checks query.  Both share the messages
branch: data.messages truthy and Array.isArray(data.messages), then
lastMessage = messages[messages.length - 1] and lastMessage?.content
with a fall-back to the empty string. -/

/-- The messages branch shared by both revisions: the content field of the
last element of the list, or the empty string when the list is empty or the
last element's content is absent or falsy. -/
def messagesExtract (ms : List Json) : Json :=
  match ms.getLast? with
  | none => Json.str ""
  | some lastMessage =>
    match jget lastMessage "content" with
    | some c => if truthy c then c else Json.str ""
    | none => Json.str ""

/-- Sequential truthiness checks over top-level fields, first truthy value
wins, empty string when none hits (the final return of extractPrompt). -/
def firstTruthyField (data : Json) : List String → Json
  | [] => Json.str ""
  | key :: keys =>
    match jget data key with
    | some v => if truthy v then v else firstTruthyField data keys
    | none => firstTruthyField data keys

/-- Shared structure of both extractPrompt revisions, parametrized by the
list of top-level fields tried after the messages branch.  parsed is the
JSON.parse outcome; a parse throw, and the property-access throw on a null
root, are caught by the try/catch and yield the first 1000 characters of
the raw body. -/
def extractPromptWith (keys : List String) (parsed : Except Unit Json)
    (body : String) : Json :=
  match parsed with
  | Except.error _ => Json.str (takeChars 1000 body)
  | Except.ok Json.null => Json.str (takeChars 1000 body)
  | Except.ok data =>
    match jget data "messages" with
    | some m =>
      if truthy m && isJsArray m then
        match m with
        | Json.arr ms => messagesExtract ms
        | _ => Json.str ""
      else firstTruthyField data keys
    | none => firstTruthyField data keys

/-- extractPrompt, second revision (src/server.js lines 535-561):
messages, then prompt, input, text, query. -/
def extractPrompt (parsed : Except Unit Json) (body : String) : Json :=
  extractPromptWith ["prompt", "input", "text", "query"] parsed body

/-- extractPrompt, first revision (src/server.js lines 208-226):
messages, then prompt, input, text; no query rule. -/
def extractPromptV1 (parsed : Except Unit Json) (body : String) : Json :=
  extractPromptWith ["prompt", "input", "text"] parsed body

/-! ## PIIGate stage 2: detectPII (src/pii-detector.js lines 7-51)

The remote call is a library boundary; its outcome is one of: a response
(status plus the response.json() outcome), a transport error, or a timeout
(the latter two reject the await and land in the catch).  On a response the
code checks response.ok (2xx status), then navigates
data.candidates[0]?.content?.parts[0]?.text?.trim() and compares the
result to the PII_DETECTED token; every throw along the way is caught and
collapsed to false. -/

/-- JavaScript String.prototype.trim: strip whitespace from both ends (the
whitespace set restricted to its ASCII members, which covers every response
the claims are about). -/
def jsTrim (s : String) : String :=
  String.mk (((s.data.dropWhile isJsSpace).reverse.dropWhile isJsSpace).reverse)

/-- Outcome of the fetch to the classification endpoint. -/
inductive FetchResult where
  | response : Nat → Except Unit Json → FetchResult
  | transportError : FetchResult
  | timeout : FetchResult

/-- response.ok: the status is in the 2xx success range. -/
def responseOk (status : Nat) : Bool :=
  decide (200 ≤ status) && decide (status < 300)

/-- JavaScript v[0]: throws on null, element or undefined on arrays, the
"0" property on objects, a one-character string on strings, undefined on
the remaining primitives. -/
def jsIndexZero : Json → Except Unit (Option Json)
  | Json.null => Except.error ()
  | Json.arr l => Except.ok (l.get? 0)
  | Json.obj fields => Except.ok (lookupField fields "0")
  | Json.str s =>
    Except.ok (match s.data with
      | [] => none
      | c :: _ => some (Json.str (String.mk [c])))
  | _ => Except.ok none

/-- The navigation data.candidates[0]?.content?.parts[0]?.text of
src/pii-detector.js line 43, returning the untrimmed text field: error
models a thrown TypeError (indexing undefined or null, or a trim call on a
non-string), none models an undefined result of the optional chain. -/
def getCandText (data : Json) : Except Unit (Option String) :=
  match data with
  | Json.null => Except.error ()
  | _ =>
    match jget data "candidates" with
    | none => Except.error ()
    | some cands =>
      match jsIndexZero cands with
      | Except.error e => Except.error e
      | Except.ok none => Except.ok none
      | Except.ok (some Json.null) => Except.ok none
      | Except.ok (some c0) =>
        match jget c0 "content" with
        | none => Except.ok none
        | some Json.null => Except.ok none
        | some content =>
          match jget content "parts" with
          | none => Except.error ()
          | some parts =>
            match jsIndexZero parts with
            | Except.error e => Except.error e
            | Except.ok none => Except.ok none
            | Except.ok (some Json.null) => Except.ok none
            | Except.ok (some p0) =>
              match jget p0 "text" with
              | none => Except.ok none
              | some Json.null => Except.ok none
              | some (Json.str s) => Except.ok (some s)
              | some _ => Except.error ()

/-- detectPII of src/pii-detector.js lines 7-51, as a function of the fetch
outcome.  Total: the try/catch guarantees a Boolean is always returned. -/
def detectPII : FetchResult → Bool
  | FetchResult.transportError => false
  | FetchResult.timeout => false
  | FetchResult.response status jsonBody =>
    if responseOk status then
      match jsonBody with
      | Except.error _ => false
      | Except.ok data =>
        match getCandText data with
        | Except.error _ => false
        | Except.ok none => false
        | Except.ok (some s) => jsTrim s == "PII_DETECTED"
    else false

example :
    detectPII (FetchResult.response 200 (Except.ok (Json.obj
      [("candidates", Json.arr [Json.obj [("content", Json.obj
        [("parts", Json.arr [Json.obj [("text", Json.str " PII_DETECTED ")]])])]])]))) = true := by
  decide

example :
    detectPII (FetchResult.response 200 (Except.ok (Json.obj
      [("candidates", Json.arr [Json.obj [("content", Json.obj
        [("parts", Json.arr [Json.obj [("text", Json.str "NO_PII")]])])]])]))) = false := by
  decide

example :
    detectPII (FetchResult.response 500 (Except.ok (Json.obj
      [("candidates", Json.arr [Json.obj [("content", Json.obj
        [("parts", Json.arr [Json.obj [("text", Json.str "PII_DETECTED")]])])]])]))) = false := by
  decide

example : detectPII FetchResult.timeout = false := by decide

/-! ## Stage-1 wiring (src/unnamed/part_001 lines 134-141)

In the revision that wires the pre-filter, handleChatRequest runs
quickPIICheck on the prompt first and awaits detectPII only when the
pre-filter signals a possible match; otherwise hasPII stays false and no
remote call happens.  The Nat component counts detectPII invocations. -/

def piiStage (fetch : FetchResult) (prompt : String) : Bool × Nat :=
  if quickPIICheck prompt then (detectPII fetch, 1) else (false, 0)

/-! ## Inspection pipeline state and outcomes (src/server.js)

The end-of-body callbacks decide between blocking with a 403 JSON response
and forwarding the buffered body upstream, and update the Stats counters.
We model the decision as a pure transition on (Stats, outcome), with the
classifier outcome passed in; the Nat component again counts detectPII
invocations. -/

/-- The stats counters of src/server.js lines 29-34 (startTime omitted:
it is never touched by the inspection path). -/
structure Stats where
  requestsBlocked : Nat
  requestsAllowed : Nat
  piiDetections : Nat
deriving DecidableEq

/-- What the handler did with the request. -/
inductive Action where
  | blocked : Nat → Json → Action
  | forwarded : String → Action

/-- The 403 block body of src/server.js lines 128-133 (first revision):
exactly the four fields error, message, suggestion, blocked. -/
def blockBody : Json :=
  Json.obj
    [("error", Json.str "PII Detected"),
     ("message", Json.str "Your request contains personally identifiable information and has been blocked."),
     ("suggestion", Json.str "Please remove personal information like names, emails, phone numbers, or addresses."),
     ("blocked", Json.boolean true)]

/-- The 403 block body of src/server.js lines 511-517 (second revision),
which adds a timestamp field. -/
def blockBodyV2 (timestamp : String) : Json :=
  Json.obj
    [("error", Json.str "PII Detected"),
     ("message", Json.str "Your request contains personally identifiable information and has been blocked."),
     ("suggestion", Json.str "Please remove personal information like names, emails, phone numbers, or addresses."),
     ("blocked", Json.boolean true),
     ("timestamp", Json.str timestamp)]

/-- The top-level keys of a JSON object. -/
def jsonKeys : Json → List String
  | Json.obj fields => fields.map Prod.fst
  | _ => []

/-- The guard prompt && prompt.length > 10 of src/server.js lines 117 and
500: the prompt is truthy and carries a length greater than 10 (a missing
length property compares as undefined > 10, which is false). -/
def promptGate (prompt : Json) : Bool :=
  truthy prompt &&
    (match jsLen prompt with
     | some n => decide (n > 10)
     | none => false)

/-- The end-of-body callback of handleAIPlatform, src/server.js
lines 113-147 (first revision): extract the prompt, gate on truthiness and
length, classify, then block (incrementing requestsBlocked and
piiDetections) or forward (incrementing requestsAllowed). -/
def handleAIPlatformEnd (fetch : FetchResult) (parsed : Except Unit Json)
    (body : String) (st : Stats) : Action × Stats × Nat :=
  let prompt := extractPromptV1 parsed body
  if promptGate prompt then
    if detectPII fetch then
      (Action.blocked 403 blockBody,
       { st with requestsBlocked := st.requestsBlocked + 1,
                 piiDetections := st.piiDetections + 1 }, 1)
    else
      (Action.forwarded body,
       { st with requestsAllowed := st.requestsAllowed + 1 }, 1)
  else
    (Action.forwarded body,
     { st with requestsAllowed := st.requestsAllowed + 1 }, 0)

/-- The end-of-body callback of handleChatRequest, src/server.js
lines 496-532 (second revision).  The awaited classifier outcome is an
Except so that a rejected classification (a thrown error anywhere in the
try block after extraction) can be modelled; the surrounding catch turns
any such error into the allowed path (fail open, requestsAllowed++,
forward). -/
def handleChatRequestEnd (classify : Except Unit Bool)
    (parsed : Except Unit Json) (body : String) (timestamp : String)
    (st : Stats) : Action × Stats :=
  let prompt := extractPrompt parsed body
  if promptGate prompt then
    match classify with
    | Except.error _ =>
      (Action.forwarded body, { st with requestsAllowed := st.requestsAllowed + 1 })
    | Except.ok true =>
      (Action.blocked 403 (blockBodyV2 timestamp),
       { st with requestsBlocked := st.requestsBlocked + 1,
                 piiDetections := st.piiDetections + 1 })
    | Except.ok false =>
      (Action.forwarded body, { st with requestsAllowed := st.requestsAllowed + 1 })
  else
    (Action.forwarded body, { st with requestsAllowed := st.requestsAllowed + 1 })

/-! ## Host classification and CONNECT routing (src/server.js)

setupRoutes line 92 and handleConnect line 231 both classify a host with
this.aiPlatforms.some(platform => host.includes(platform)): raw substring
containment of a configured platform name. -/

/-- The platform list of src/server.js lines 39-45. -/
def aiPlatforms : List String :=
  ["chat.openai.com", "claude.ai", "bard.google.com",
   "copilot.microsoft.com", "gemini.google.com"]

/-- Does the first character list start with the second? -/
def charsHavePrefix : List Char → List Char → Bool
  | _, [] => true
  | [], _ :: _ => false
  | c :: cs, d :: ds => c == d && charsHavePrefix cs ds

/-- Does the first character list contain the second as a contiguous run? -/
def charsContain : List Char → List Char → Bool
  | [], p => charsHavePrefix [] p
  | c :: rest, p => charsHavePrefix (c :: rest) p || charsContain rest p

/-- Does the first character list end with the second? -/
def charsHaveSuffix (s p : List Char) : Bool :=
  charsHavePrefix s.reverse p.reverse

/-- JavaScript String.prototype.includes: substring containment. -/
def hostIncludes (host pat : String) : Bool :=
  charsContain host.data pat.data

/-- The isAIPlatform test of src/server.js lines 92 and 231. -/
def isAIPlatformHost (host : String) : Bool :=
  aiPlatforms.any (fun platform => hostIncludes host platform)

/-- Where handleConnect (src/server.js lines 229-241) sends the tunnel. -/
inductive ConnectRoute where
  | intercept : ConnectRoute
  | tunnel : ConnectRoute
deriving DecidableEq

/-- handleConnect's dispatch on the CONNECT target hostname. -/
def connectDecision (hostname : String) : ConnectRoute :=
  if isAIPlatformHost hostname then ConnectRoute.intercept else ConnectRoute.tunnel

/-- Modelled from the spec: the exact-or-suffix host matching rule the
specification prescribes for HostPolicy (a host matches a platform entry
when it equals it, or ends in a dot followed by it), stated for comparison
with the source's substring rule. -/
def specHostMatch (host : String) (platforms : List String) : Bool :=
  platforms.any (fun p => host == p || charsHaveSuffix host.data ("." ++ p).data)

/-! ## Intercepted CONNECT handling (src/server.js lines 243-273)

handleAIConnect first checks that the certificate and key files for the
hostname exist; if either is missing it ends the client socket with a
plaintext 500 and returns, never writing the 200.  Otherwise it writes the
200 Connection Established exactly once, then reads the certificate files
and only then constructs the TLS socket (the client-side handshake cannot
begin before the 200 arrives).  We model the handler as the sequence of
externally visible events it performs; readOk models whether the
readFileSync calls after the 200 succeed (a failure throws and nothing
further happens). -/

inductive ConnectEvent where
  | write200 : ConnectEvent
  | write500Close : ConnectEvent
  | readCertFiles : ConnectEvent
  | startTLS : ConnectEvent
  | errorThrown : ConnectEvent
deriving DecidableEq

def handleAIConnect (certExists keyExists readOk : Bool) : List ConnectEvent :=
  if certExists && keyExists then
    if readOk then
      [ConnectEvent.write200, ConnectEvent.readCertFiles, ConnectEvent.startTLS]
    else
      [ConnectEvent.write200, ConnectEvent.errorThrown]
  else
    [ConnectEvent.write500Close]

/-! ## Certificate manager (src/cert-manager.js)

generateServerCert (lines 67-119) builds a leaf certificate: subject
commonName = hostname, subjectAltName = the hostname and its wildcard,
notAfter = notBefore with the year advanced by one, signed with the CA key
loaded from disk.  setup (lines 121-140) generates a certificate for each
platform only when no certificate file for it exists yet; the store models
the certificates directory keyed by hostname. -/

/-- A calendar instant, split as the year and the position inside the year,
which is all setFullYear-based validity arithmetic needs. -/
structure SimpleDate where
  year : Int
  ofYear : Nat
deriving DecidableEq

/-- d.setFullYear(d.getFullYear() + n) applied to a copy. -/
def addYears (d : SimpleDate) (n : Int) : SimpleDate :=
  { year := d.year + n, ofYear := d.ofYear }

/-- The identity-relevant content of a generated leaf certificate; key
material is tracked by identifier. -/
structure LeafCert where
  subjectCN : String
  san : List String
  notBefore : SimpleDate
  notAfter : SimpleDate
  signedWith : Nat
  publicKey : Nat
deriving DecidableEq

/-- generateServerCert of src/cert-manager.js lines 67-119, as a function
of the hostname, the CA signing key, the freshly generated server key pair
and the current time. -/
def generateServerCert (hostname : String) (caKeyId : Nat)
    (freshKeyId : Nat) (now : SimpleDate) : LeafCert :=
  { subjectCN := hostname
  , san := [hostname, "*." ++ hostname]
  , notBefore := now
  , notAfter := addYears now 1
  , signedWith := caKeyId
  , publicKey := freshKeyId }

/-- Lookup in the certificate store (the certificates directory). -/
def lookupCert : List (String × LeafCert) → String → Option LeafCert
  | [], _ => none
  | (h, c) :: rest, hostname => if h == hostname then some c else lookupCert rest hostname

/-- The per-platform step of setup, src/cert-manager.js lines 131-136:
generate and store a certificate only when none exists for the hostname. -/
def ensureCert (store : List (String × LeafCert)) (hostname : String)
    (caKeyId : Nat) (freshKeyId : Nat) (now : SimpleDate) :
    List (String × LeafCert) :=
  match lookupCert store hostname with
  | some _ => store
  | none => (hostname, generateServerCert hostname caKeyId freshKeyId now) :: store

/-! ## Helper lemmas -/

theorem charsHavePrefix_iff : ∀ (s p : List Char), charsHavePrefix s p = true ↔ p <+: s
  | _, [] => by simp [charsHavePrefix]
  | [], _ :: _ => by simp [charsHavePrefix]
  | c :: cs, d :: ds => by
    rw [charsHavePrefix, Bool.and_eq_true, beq_iff_eq, charsHavePrefix_iff cs ds,
      List.cons_prefix_cons]
    exact ⟨fun h => ⟨h.1.symm, h.2⟩, fun h => ⟨h.1.symm, h.2⟩⟩

theorem charsContain_iff : ∀ (s p : List Char), charsContain s p = true ↔ p <:+: s
  | [], p => by
    simp [charsContain, charsHavePrefix_iff]
  | c :: rest, p => by
    rw [charsContain, Bool.or_eq_true, charsHavePrefix_iff, charsContain_iff rest p,
      List.infix_cons_iff]

theorem charsHaveSuffix_iff (s p : List Char) : charsHaveSuffix s p = true ↔ p <:+ s := by
  rw [charsHaveSuffix, charsHavePrefix_iff, List.reverse_prefix]

theorem connectDecision_intercept_iff (host : String) :
    connectDecision host = ConnectRoute.intercept ↔ isAIPlatformHost host = true := by
  unfold connectDecision
  by_cases h : isAIPlatformHost host = true <;> simp [h]

/-! ## Claim theorems -/

/-- C1, counterexample: the CONNECT routing of src/server.js classifies by
raw substring containment, so the hostname notclaude.ai — which contains
the platform name claude.ai only as an interior substring and is neither
equal to nor a dot-separated suffix match of any configured platform — is
classified as intercepted, contradicting the claimed exact-or-suffix rule. -/
theorem c1_substring_counterexample :
    connectDecision "notclaude.ai" = ConnectRoute.intercept ∧
    specHostMatch "notclaude.ai" aiPlatforms = false ∧
    connectDecision "claude.ai.evil.example" = ConnectRoute.intercept ∧
    specHostMatch "claude.ai.evil.example" aiPlatforms = false := by
  refine ⟨?_, by decide, ?_, by decide⟩ <;> rfl

/-- C1, amended: the decision to intercept a CONNECT target (and a
plain-HTTP Host header, which uses the same test) is raw substring
containment of a configured platform name: a hostname is intercepted
exactly when some platform name occurs in it as a contiguous substring, so
hostnames containing a platform name as an interior substring are also
intercepted; every host the exact-or-suffix rule matches is in particular
intercepted. -/
theorem c1_substring_matching :
    (∀ host : String, connectDecision host = ConnectRoute.intercept ↔
      ∃ p ∈ aiPlatforms, p.data <:+: host.data) ∧
    (∀ host : String, specHostMatch host aiPlatforms = true →
      connectDecision host = ConnectRoute.intercept) := by
  have hmain : ∀ host : String, connectDecision host = ConnectRoute.intercept ↔
      ∃ p ∈ aiPlatforms, p.data <:+: host.data := by
    intro host
    rw [connectDecision_intercept_iff, isAIPlatformHost, List.any_eq_true]
    constructor
    · rintro ⟨p, hp, hc⟩
      exact ⟨p, hp, (charsContain_iff host.data p.data).mp hc⟩
    · rintro ⟨p, hp, hc⟩
      exact ⟨p, hp, (charsContain_iff host.data p.data).mpr hc⟩
  refine ⟨hmain, ?_⟩
  intro host h
  rw [specHostMatch, List.any_eq_true] at h
  obtain ⟨p, hp, hmatch⟩ := h
  rw [Bool.or_eq_true] at hmatch
  rw [hmain host]
  refine ⟨p, hp, ?_⟩
  cases hmatch with
  | inl heq =>
    rw [beq_iff_eq] at heq
    rw [heq]
  | inr hsuf =>
    rw [charsHaveSuffix_iff] at hsuf
    have hstep : p.data <:+ ("." ++ p).data := by
      have : ("." ++ p).data = '.' :: p.data := by
        simp [String.data_append]
      rw [this]
      exact List.suffix_cons '.' p.data
    exact (hstep.trans hsuf).isInfix

/-- C1, witness for the amended theorem: an exact platform-name host is
intercepted. -/
theorem c1_substring_matching_witness :
    connectDecision "claude.ai" = ConnectRoute.intercept :=
  c1_substring_matching.2 "claude.ai" (by decide)

/-- C2: detectPII returns Detected exactly when the remote call completed
with a success (2xx) status and the navigated response text field is, after
trimming, exactly the token PII_DETECTED; a timeout, a transport error, a
non-success status, a malformed response body (a JSON parse throw or a
navigation throw) and any other text (NO_PII included) all yield Clear.
The function is total, so no error ever propagates to the caller. -/
theorem c2_detectPII_verdict :
    (∀ f : FetchResult, detectPII f = true ↔
      ∃ status data s, f = FetchResult.response status (Except.ok data) ∧
        responseOk status = true ∧ getCandText data = Except.ok (some s) ∧
        jsTrim s = "PII_DETECTED") ∧
    detectPII FetchResult.timeout = false ∧
    detectPII FetchResult.transportError = false := by
  refine ⟨?_, rfl, rfl⟩
  intro f
  constructor
  · intro h
    cases f with
    | transportError => exact absurd h (by decide)
    | timeout => exact absurd h (by decide)
    | response status jb =>
      simp only [detectPII] at h
      split at h
      next hok =>
        split at h
        · simp at h
        next data =>
          split at h
          · simp at h
          · simp at h
          next s heq =>
            exact ⟨status, data, s, rfl, hok, heq, beq_iff_eq.mp h⟩
      next => simp at h
  · rintro ⟨status, data, s, rfl, hok, hget, htrim⟩
    simp only [detectPII]
    rw [if_pos hok, hget]
    simp [htrim]

/-- C3: in the revision that wires the pre-filter (handleChatRequest,
src/unnamed/part_001 lines 134-141), whenever none of the five
signature patterns matches the text, the result is Clear with zero
detectPII invocations: the remote classification call is issued only when
the stage-1 pre-filter signals a possible match. -/
theorem c3_prefilter_shortcircuit (fetch : FetchResult) (text : String)
    (h : quickPIICheck text = false) : piiStage fetch text = (false, 0) := by
  simp [piiStage, h]

/-- C3, witness: a concrete PII-free text is cleared by stage 1 alone, for
an arbitrary (never consulted) remote outcome. -/
theorem c3_prefilter_shortcircuit_witness :
    piiStage FetchResult.transportError "hello there friend" = (false, 0) :=
  c3_prefilter_shortcircuit FetchResult.transportError "hello there friend" (by decide)

/-- C4: an inspected POST chat request whose extracted prompt passes the
length gate and is classified Detected is answered with status 403 and the
block body whose keys are exactly error, message, suggestion, blocked (the
latter true), is not forwarded, and requestsBlocked and piiDetections each
grow by exactly one while requestsAllowed is unchanged
(handleAIPlatform, src/server.js lines 113-147). -/
theorem c4_block_response (fetch : FetchResult) (parsed : Except Unit Json)
    (body : String) (st : Stats)
    (hgate : promptGate (extractPromptV1 parsed body) = true)
    (hpii : detectPII fetch = true) :
    handleAIPlatformEnd fetch parsed body st =
      (Action.blocked 403 blockBody,
       { requestsBlocked := st.requestsBlocked + 1,
         requestsAllowed := st.requestsAllowed,
         piiDetections := st.piiDetections + 1 }, 1) ∧
    jsonKeys blockBody = ["error", "message", "suggestion", "blocked"] ∧
    jget blockBody "blocked" = some (Json.boolean true) := by
  refine ⟨?_, rfl, rfl⟩
  simp [handleAIPlatformEnd, hgate, hpii]

/-- C4, witness: the blocked scenario at a concrete detected prompt. -/
theorem c4_block_response_witness :
    handleAIPlatformEnd
      (FetchResult.response 200 (Except.ok (Json.obj
        [("candidates", Json.arr [Json.obj [("content", Json.obj
          [("parts", Json.arr [Json.obj [("text", Json.str "PII_DETECTED")]])])]])])))
      (Except.ok (Json.obj [("prompt", Json.str "contact me at a@b.com")]))
      "b" ⟨0, 0, 0⟩ =
      (Action.blocked 403 blockBody, ⟨1, 0, 1⟩, 1) ∧
    jsonKeys blockBody = ["error", "message", "suggestion", "blocked"] :=
  ⟨(c4_block_response
      (FetchResult.response 200 (Except.ok (Json.obj
        [("candidates", Json.arr [Json.obj [("content", Json.obj
          [("parts", Json.arr [Json.obj [("text", Json.str "PII_DETECTED")]])])]])])))
      (Except.ok (Json.obj [("prompt", Json.str "contact me at a@b.com")]))
      "b" ⟨0, 0, 0⟩ (by decide) (by decide)).1,
   (c4_block_response
      (FetchResult.response 200 (Except.ok (Json.obj
        [("candidates", Json.arr [Json.obj [("content", Json.obj
          [("parts", Json.arr [Json.obj [("text", Json.str "PII_DETECTED")]])])]])])))
      (Except.ok (Json.obj [("prompt", Json.str "contact me at a@b.com")]))
      "b" ⟨0, 0, 0⟩ (by decide) (by decide)).2.1⟩

/-- C5: extractPrompt (src/server.js lines 535-561) applies its rules in
the fixed order messages, prompt, input, text, query with the first match
winning; a messages list yields the content of its last element even when
prompt, input, text and query fields are all present; each later rule fires
only when every earlier field is absent (or falsy); a parse failure falls
back to the first 1000 characters of the raw body; extraction is total. -/
theorem c5_extraction_order :
    (∀ (body c1 c2 vp vi vt vq : String),
      extractPrompt (Except.ok (Json.obj
        [("messages", Json.arr [Json.obj [("content", Json.str c1)],
                                Json.obj [("content", Json.str c2)]]),
         ("prompt", Json.str vp), ("input", Json.str vi),
         ("text", Json.str vt), ("query", Json.str vq)])) body = Json.str c2) ∧
    (∀ (body vp vi vt vq : String), vp ≠ "" →
      extractPrompt (Except.ok (Json.obj
        [("prompt", Json.str vp), ("input", Json.str vi),
         ("text", Json.str vt), ("query", Json.str vq)])) body = Json.str vp) ∧
    (∀ (body vi vt vq : String), vi ≠ "" →
      extractPrompt (Except.ok (Json.obj
        [("input", Json.str vi), ("text", Json.str vt),
         ("query", Json.str vq)])) body = Json.str vi) ∧
    (∀ (body vt vq : String), vt ≠ "" →
      extractPrompt (Except.ok (Json.obj
        [("text", Json.str vt), ("query", Json.str vq)])) body = Json.str vt) ∧
    (∀ (body vq : String), vq ≠ "" →
      extractPrompt (Except.ok (Json.obj [("query", Json.str vq)])) body = Json.str vq) ∧
    (∀ body : String,
      extractPrompt (Except.error ()) body = Json.str (takeChars 1000 body)) ∧
    extractPrompt (Except.ok (Json.obj
      [("messages", Json.arr [Json.obj [("content", Json.str "A")],
                              Json.obj [("content", Json.str "B")]])])) "" = Json.str "B" ∧
    extractPrompt (Except.ok (Json.obj
      [("prompt", Json.str "X"), ("input", Json.str "Y")])) "" = Json.str "X" := by
  refine ⟨?_, ?_, ?_, ?_, ?_, fun body => rfl, rfl, rfl⟩
  · intro body c1 c2 vp vi vt vq
    by_cases h2 : c2 = ""
    · subst h2
      simp [extractPrompt, extractPromptWith, jget, lookupField, messagesExtract, truthy, isJsArray]
    · simp [extractPrompt, extractPromptWith, jget, lookupField, messagesExtract, truthy, isJsArray, h2]
  · intro body vp vi vt vq h
    simp [extractPrompt, extractPromptWith, jget, lookupField, firstTruthyField, truthy, h]
  · intro body vi vt vq h
    simp [extractPrompt, extractPromptWith, jget, lookupField, firstTruthyField, truthy, h]
  · intro body vt vq h
    simp [extractPrompt, extractPromptWith, jget, lookupField, firstTruthyField, truthy, h]
  · intro body vq h
    simp [extractPrompt, extractPromptWith, jget, lookupField, firstTruthyField, truthy, h]

/-- C5, witness: the two precedence scenarios of the claim, at concrete
inputs through the quantified parts. -/
theorem c5_extraction_order_witness :
    extractPrompt (Except.ok (Json.obj
      [("prompt", Json.str "X"), ("input", Json.str "Y"),
       ("text", Json.str "Z"), ("query", Json.str "W")])) "" = Json.str "X" ∧
    extractPrompt (Except.ok (Json.obj [("query", Json.str "W")])) "" = Json.str "W" :=
  ⟨c5_extraction_order.2.1 "" "X" "Y" "Z" "W" (by decide),
   c5_extraction_order.2.2.2.2.1 "" "W" (by decide)⟩

/-- C6, counterexample: a prompt of length exactly 10 — at least 10
characters, so the claim says classification is invoked — is skipped by the
gate prompt.length > 10 of src/server.js lines 117 and 500: zero detectPII
invocations, the request is forwarded and counted as allowed. -/
theorem c6_length_ten_counterexample :
    extractPromptV1 (Except.ok (Json.obj [("prompt", Json.str "abcdefghij")])) "" =
      Json.str "abcdefghij" ∧
    ("abcdefghij" : String).length = 10 ∧
    handleAIPlatformEnd FetchResult.transportError
      (Except.ok (Json.obj [("prompt", Json.str "abcdefghij")])) "" ⟨0, 0, 0⟩ =
      (Action.forwarded "", ⟨0, 1, 0⟩, 0) :=
  ⟨rfl, rfl, rfl⟩

/-- C6, amended: the remote classification is invoked if and only if the
extracted text's length is strictly greater than 10 (at least 11
characters); at length 10 or below classification is skipped entirely, the
request is forwarded, and requestsAllowed is incremented while
requestsBlocked and piiDetections stay unchanged. -/
theorem c6_length_gate (fetch : FetchResult) (parsed : Except Unit Json)
    (body : String) (st : Stats) (s : String)
    (hs : extractPromptV1 parsed body = Json.str s) :
    (handleAIPlatformEnd fetch parsed body st).2.2 =
      (if s.length > 10 then 1 else 0) ∧
    (s.length ≤ 10 →
      handleAIPlatformEnd fetch parsed body st =
        (Action.forwarded body,
         { st with requestsAllowed := st.requestsAllowed + 1 }, 0)) := by
  by_cases hlen : s.length > 10
  · have hne : s ≠ "" := by
      intro he
      rw [he] at hlen
      exact absurd hlen (by decide)
    have hgt : promptGate (extractPromptV1 parsed body) = true := by
      rw [hs]
      simp [promptGate, truthy, jsLen, hne, hlen]
    refine ⟨?_, fun hle => absurd hlen (by omega)⟩
    rw [if_pos hlen]
    cases hd : detectPII fetch <;> simp [handleAIPlatformEnd, hgt, hd]
  · have hgf : promptGate (extractPromptV1 parsed body) = false := by
      rw [hs]
      simp [promptGate, truthy, jsLen, hlen]
    refine ⟨?_, fun _ => by simp [handleAIPlatformEnd, hgf]⟩
    rw [if_neg hlen]
    simp [handleAIPlatformEnd, hgf]

/-- C6, witness for the amended theorem: the below-threshold scenario with
the four-character prompt of the specification. -/
theorem c6_length_gate_witness :
    handleAIPlatformEnd FetchResult.transportError
      (Except.ok (Json.obj [("prompt", Json.str "hi!!")])) "" ⟨0, 0, 0⟩ =
      (Action.forwarded "", ⟨0, 1, 0⟩, 0) :=
  (c6_length_gate FetchResult.transportError
    (Except.ok (Json.obj [("prompt", Json.str "hi!!")])) "" ⟨0, 0, 0⟩ "hi!!" rfl).2
    (by decide)

/-- C7, counterexample: the claim says any unexpected error in the
inspection path — a parse exception included — makes the request proceed
as Clear, forwarded with requestsAllowed incremented.  In the code
(handleChatRequest, src/server.js lines 496-532) a JSON.parse throw is
caught inside extractPrompt, which falls back to the first 1000 characters
of the raw body; a PII-bearing malformed body is then classified on that
fallback text and, on a Detected verdict, BLOCKED: status 403,
requestsBlocked and piiDetections incremented, nothing forwarded,
requestsAllowed unchanged — the opposite of the claimed conclusion. -/
theorem c7_parse_block_counterexample :
    handleChatRequestEnd (Except.ok true) (Except.error ())
      "email me: someone@example.com now" "ts" ⟨0, 0, 0⟩ =
      (Action.blocked 403 (blockBodyV2 "ts"), ⟨1, 0, 1⟩) ∧
    (handleChatRequestEnd (Except.ok true) (Except.error ())
      "email me: someone@example.com now" "ts" ⟨0, 0, 0⟩).2.requestsAllowed = 0 :=
  ⟨rfl, rfl⟩

/-- C7, amended: an unexpected error in the inspection path never
propagates to the client as a failure, but the two error classes the claim
names behave differently.  A classifier exception is absorbed by the
surrounding catch and the request proceeds exactly as if the verdict were
Clear: forwarded upstream, requestsAllowed incremented, for every body,
parse outcome and starting counters.  A parse exception is caught inside
extraction and does not abort inspection: the first 1000 characters of the
raw body become the text to classify, and the request is then blocked
(requestsBlocked and piiDetections incremented, nothing forwarded) on a
Detected verdict, or forwarded with requestsAllowed incremented on a Clear
verdict. -/
theorem c7_error_containment :
    (∀ (parsed : Except Unit Json) (body timestamp : String) (st : Stats),
      handleChatRequestEnd (Except.error ()) parsed body timestamp st =
        (Action.forwarded body,
         { st with requestsAllowed := st.requestsAllowed + 1 })) ∧
    (∀ body : String,
      extractPrompt (Except.error ()) body = Json.str (takeChars 1000 body)) ∧
    (∀ (body timestamp : String) (st : Stats),
      promptGate (Json.str (takeChars 1000 body)) = true →
      handleChatRequestEnd (Except.ok true) (Except.error ()) body timestamp st =
        (Action.blocked 403 (blockBodyV2 timestamp),
         { st with requestsBlocked := st.requestsBlocked + 1,
                   piiDetections := st.piiDetections + 1 })) ∧
    (∀ (body timestamp : String) (st : Stats),
      handleChatRequestEnd (Except.ok false) (Except.error ()) body timestamp st =
        (Action.forwarded body,
         { st with requestsAllowed := st.requestsAllowed + 1 })) := by
  refine ⟨?_, fun body => rfl, ?_, ?_⟩
  · intro parsed body timestamp st
    cases hg : promptGate (extractPrompt parsed body) <;>
      simp [handleChatRequestEnd, hg]
  · intro body timestamp st h
    have hg : promptGate (extractPrompt (Except.error ()) body) = true := h
    simp [handleChatRequestEnd, hg]
  · intro body timestamp st
    cases hg : promptGate (extractPrompt (Except.error ()) body) <;>
      simp [handleChatRequestEnd, hg]

/-- C7, witness for the amended theorem: a malformed body long enough to
pass the length gate is blocked on a Detected verdict after the
parse-failure fallback. -/
theorem c7_error_containment_witness :
    handleChatRequestEnd (Except.ok true) (Except.error ())
      "call me at 555-123-4567 today" "t0" ⟨2, 3, 4⟩ =
      (Action.blocked 403 (blockBodyV2 "t0"), ⟨3, 3, 5⟩) :=
  c7_error_containment.2.2.1 "call me at 555-123-4567 today" "t0" ⟨2, 3, 4⟩
    (by decide)

/-- C8: on an intercepted CONNECT, when the certificate for the hostname
cannot be obtained (certificate or key file missing) the client socket
receives a plaintext 500 and is closed and the 200 is never written;
otherwise the 200 Connection Established is written exactly once, and
strictly before the TLS handshake machinery starts. -/
theorem c8_connect_order (certExists keyExists readOk : Bool) :
    ((certExists && keyExists) = false →
      handleAIConnect certExists keyExists readOk = [ConnectEvent.write500Close] ∧
      ConnectEvent.write200 ∉ handleAIConnect certExists keyExists readOk) ∧
    ((certExists && keyExists) = true →
      (handleAIConnect certExists keyExists readOk).count ConnectEvent.write200 = 1 ∧
      (ConnectEvent.startTLS ∈ handleAIConnect certExists keyExists readOk →
        (handleAIConnect certExists keyExists readOk).indexOf ConnectEvent.write200 <
          (handleAIConnect certExists keyExists readOk).indexOf ConnectEvent.startTLS)) := by
  cases certExists <;> cases keyExists <;> cases readOk <;>
    constructor <;> intro h <;>
      first
        | exact absurd h (by decide)
        | decide

/-- C8, witness: both branches at concrete inputs — a missing certificate
aborts with the 500, and the happy path writes the 200 exactly once. -/
theorem c8_connect_order_witness :
    handleAIConnect false true true = [ConnectEvent.write500Close] ∧
    (handleAIConnect true true true).count ConnectEvent.write200 = 1 :=
  ⟨((c8_connect_order false true true).1 (by decide)).1,
   ((c8_connect_order true true true).2 (by decide)).1⟩

/-- C9: every certificate generateServerCert (src/cert-manager.js
lines 67-119) produces has subject commonName equal to the hostname,
subjectAltName equal to the hostname and its wildcard, a validity of one
year (notAfter is notBefore with the year advanced by one) and is signed
with the CA key; the setup guard (lines 131-136) makes a second issuance
for the same hostname return the already-stored certificate unchanged, and
generates a new certificate only when none is cached (in particular only
when the cached one is missing or expired). -/
theorem c9_leaf_certificate :
    (∀ (hostname : String) (caKeyId freshKeyId : Nat) (now : SimpleDate),
      (generateServerCert hostname caKeyId freshKeyId now).subjectCN = hostname ∧
      (generateServerCert hostname caKeyId freshKeyId now).san =
        [hostname, "*." ++ hostname] ∧
      (generateServerCert hostname caKeyId freshKeyId now).notAfter =
        addYears (generateServerCert hostname caKeyId freshKeyId now).notBefore 1 ∧
      (generateServerCert hostname caKeyId freshKeyId now).signedWith = caKeyId) ∧
    (∀ (store : List (String × LeafCert)) (hostname : String)
       (caKeyId k1 k2 : Nat) (t1 t2 : SimpleDate),
      lookupCert (ensureCert (ensureCert store hostname caKeyId k1 t1)
          hostname caKeyId k2 t2) hostname =
        lookupCert (ensureCert store hostname caKeyId k1 t1) hostname) ∧
    (∀ (store : List (String × LeafCert)) (hostname : String)
       (caKeyId freshKeyId : Nat) (now : SimpleDate) (c : LeafCert),
      lookupCert store hostname = some c →
      ensureCert store hostname caKeyId freshKeyId now = store) ∧
    (∀ (store : List (String × LeafCert)) (hostname : String)
       (caKeyId freshKeyId : Nat) (now : SimpleDate),
      ensureCert store hostname caKeyId freshKeyId now ≠ store →
      lookupCert store hostname = none) := by
  refine ⟨fun hostname ca k t => ⟨rfl, rfl, rfl, rfl⟩, ?_, ?_, ?_⟩
  · intro store hostname caKeyId k1 k2 t1 t2
    cases hl : lookupCert store hostname with
    | some c => simp [ensureCert, hl]
    | none =>
      have h1 : ensureCert store hostname caKeyId k1 t1 =
          (hostname, generateServerCert hostname caKeyId k1 t1) :: store := by
        simp [ensureCert, hl]
      rw [h1]
      simp [ensureCert, lookupCert]
  · intro store hostname caKeyId freshKeyId now c hl
    simp [ensureCert, hl]
  · intro store hostname caKeyId freshKeyId now hne
    cases hl : lookupCert store hostname with
    | some c => exact absurd (by simp [ensureCert, hl]) hne
    | none => rfl

/-- C9, witness: reissuing for an already-stored hostname leaves the store
(and hence the stored certificate's identity) unchanged. -/
theorem c9_leaf_certificate_witness :
    ensureCert [("claude.ai", generateServerCert "claude.ai" 0 1 ⟨2024, 5⟩)]
      "claude.ai" 0 2 ⟨2025, 6⟩ =
      [("claude.ai", generateServerCert "claude.ai" 0 1 ⟨2024, 5⟩)] :=
  c9_leaf_certificate.2.2.1
    [("claude.ai", generateServerCert "claude.ai" 0 1 ⟨2024, 5⟩)]
    "claude.ai" 0 2 ⟨2025, 6⟩ (generateServerCert "claude.ai" 0 1 ⟨2024, 5⟩) rfl

/-- C10: once the parsed body is an object whose messages field is an
array, extraction commits to the messages branch — the result is the same
as if no other field were present, so prompt, input, text and query are
never consulted; an empty messages array, or a last element without a
content field, yields the empty string; in particular a body with an empty
messages array next to a non-empty prompt field extracts the empty string,
so the length gate fails, classification is skipped, the request is
forwarded and counted as allowed. -/
theorem c10_messages_commit :
    (∀ (fields : List (String × Json)) (ms : List Json) (body : String),
      lookupField fields "messages" = some (Json.arr ms) →
      extractPromptV1 (Except.ok (Json.obj fields)) body =
        extractPromptV1 (Except.ok (Json.obj [("messages", Json.arr ms)])) body) ∧
    (∀ body : String,
      extractPromptV1 (Except.ok (Json.obj
        [("messages", Json.arr []), ("prompt", Json.str "X")])) body = Json.str "") ∧
    (∀ body : String,
      extractPromptV1 (Except.ok (Json.obj
        [("messages", Json.arr [Json.obj []]),
         ("prompt", Json.str "X")])) body = Json.str "") ∧
    (∀ (fetch : FetchResult) (body : String) (st : Stats),
      handleAIPlatformEnd fetch
        (Except.ok (Json.obj [("messages", Json.arr []), ("prompt", Json.str "X")]))
        body st =
        (Action.forwarded body,
         { st with requestsAllowed := st.requestsAllowed + 1 }, 0)) := by
  refine ⟨?_, fun body => rfl, fun body => rfl, fun fetch body st => rfl⟩
  intro fields ms body h
  simp [extractPromptV1, extractPromptWith, jget, h, truthy, isJsArray, lookupField]

/-- C10, witness: committing to the messages branch at a concrete object
that also carries a prompt field. -/
theorem c10_messages_commit_witness :
    extractPromptV1 (Except.ok (Json.obj
      [("messages", Json.arr [Json.obj [("content", Json.str "B")]]),
       ("prompt", Json.str "X")])) "" =
      extractPromptV1 (Except.ok (Json.obj
        [("messages", Json.arr [Json.obj [("content", Json.str "B")]])])) "" :=
  c10_messages_commit.1
    [("messages", Json.arr [Json.obj [("content", Json.str "B")]]),
     ("prompt", Json.str "X")]
    [Json.obj [("content", Json.str "B")]] "" rfl

end AIProxy
